import Mathlib

/-!
Shallow embedding of the `go-resume-builder` repository.

The repository contains two PDF-composition programs sharing one design:
`main.go` (a standalone composer with a section-renderer registry) and the
`templates`/`utils` pair (template-1 composer plus the style resolver,
icon asset pipeline and contact-row builder).  Pure Go functions are
translated to Lean functions; filesystem state is passed explicitly as an
association list of (path, contents); the external SVG and text/template
engines are oracles threaded as explicit parameters.  Go byte strings are
modelled as Lean `String`s (all inputs exercised here are ASCII, where Go
byte indexing and Lean character indexing agree); Go `float64` arithmetic
on view-box dimensions is modelled exactly over `ℚ`.
-/

/-- Association-list lookup, modelling Go map indexing in its comma-ok form
(`v, ok := m[k]`). -/
def lookupStr {α : Type} (m : List (String × α)) (k : String) : Option α :=
  match m with
  | [] => none
  | (k', v) :: rest => if k' = k then some v else lookupStr rest k

/-- Go map indexing without comma-ok: the zero value when the key is absent. -/
def lookupD {α : Type} (m : List (String × α)) (k : String) (d : α) : α :=
  (lookupStr m k).getD d

/-- Does the character list `s` start with the pattern `pat`? -/
def startsWithSeq {α : Type} [DecidableEq α] : List α → List α → Bool
  | [], _ => true
  | _ :: _, [] => false
  | a :: as, b :: bs => if a = b then startsWithSeq as bs else false

/-- `strings.TrimPrefix(s, pre)`: drop `pre` from the front of `s` when it is
there, otherwise return `s` unchanged. -/
def trimLeading (s pre : String) : String :=
  if startsWithSeq pre.toList s.toList then s.drop pre.length else s

/-- Does the character list contain `pat` as a contiguous run?  Models
`strings.Contains` on the underlying rune sequence. -/
def containsSeq {α : Type} [DecidableEq α] (pat : List α) : List α → Bool
  | [] => startsWithSeq pat []
  | b :: rest => if startsWithSeq pat (b :: rest) then true else containsSeq pat rest

/-- `strings.Contains(s, pat)` for the strings used by the recolorer and the
template resolver. -/
def strContains (s pat : String) : Bool := containsSeq pat.toList s.toList

/-! ## Style resolver (`utils` package: `HexToColor`, `parseInt`, `ResolveColor`) -/

/-- `props.Color`: an RGB triple of machine integers (always in 0..255 here). -/
structure RGBColor where
  red : Nat
  green : Nat
  blue : Nat
deriving DecidableEq, Repr

/-- `parseInt` from `utils`: fold over the runes of the slice; the accumulator is
multiplied by 16 at every rune, and a rune in `0-9a-fA-F` adds its digit value
while any other rune adds nothing. -/
def parseIntChars (cs : List Char) : Nat :=
  cs.foldl (fun result c =>
    let r := result * 16
    if '0' ≤ c ∧ c ≤ '9' then r + (c.toNat - '0'.toNat)
    else if 'a' ≤ c ∧ c ≤ 'f' then r + (c.toNat - 'a'.toNat + 10)
    else if 'A' ≤ c ∧ c ≤ 'F' then r + (c.toNat - 'A'.toNat + 10)
    else r) 0

/-- `HexToColor` from `utils` (identical to `hexToColor` in `main.go`):
strip one leading `#`; if the remainder is not of length six return black,
otherwise parse the three two-character slices. -/
def HexToColor (hex : String) : RGBColor :=
  let hex := trimLeading hex "#"
  if hex.length ≠ 6 then ⟨0, 0, 0⟩
  else
    let cs := hex.toList
    ⟨parseIntChars (cs.take 2),
     parseIntChars ((cs.drop 2).take 2),
     parseIntChars ((cs.drop 4).take 2)⟩

/-- `ResolveColor` from `utils`: one palette lookup, falling back to treating
the name itself as a hex literal. -/
def ResolveColor (colorName : String) (colors : List (String × String)) : RGBColor :=
  match lookupStr colors colorName with
  | some colorValue => HexToColor colorValue
  | none => HexToColor colorName

/-- Specification-side value of one hex digit (`none` on a non-hex rune);
used only to state what a *valid* six-digit string denotes. -/
def hexDigitVal? (c : Char) : Option Nat :=
  if '0' ≤ c ∧ c ≤ '9' then some (c.toNat - '0'.toNat)
  else if 'a' ≤ c ∧ c ≤ 'f' then some (c.toNat - 'a'.toNat + 10)
  else if 'A' ≤ c ∧ c ≤ 'F' then some (c.toNat - 'A'.toNat + 10)
  else none

/-- Specification-side base-16 reading of a digit list, most significant digit
first; `none` as soon as one rune is not a hex digit. -/
def hexVal? : List Char → Option Nat
  | [] => some 0
  | c :: cs =>
    match hexDigitVal? c, hexVal? cs with
    | some d, some w => some (d * 16 ^ cs.length + w)
    | _, _ => none

/-! ## Content model and template resolution (`utils`) -/

/-- JSON-decoded `interface\x7b\x7d` values as Go's `encoding/json` produces
them: strings, numbers, booleans, null, arrays, string-keyed objects. -/
inductive JValue where
  | str (s : String)
  | num (q : ℚ)
  | bool (b : Bool)
  | null
  | arr (xs : List JValue)
  | obj (fields : List (String × JValue))

/-- `utils.PersonalInfo`. -/
structure PersonalInfo where
  name : String
  email : String
  phone : String
  address : String
  website : String
  github : String
  linkedin : String
deriving DecidableEq, Repr

/-- `utils.ContactField`. -/
structure ContactField where
  field : String
  content : String
  icon : String
  link : Option String
  type : Option String
deriving DecidableEq, Repr

/-- `utils.Content`: personal record, ordered contact fields, section payloads. -/
structure Content where
  personal : PersonalInfo
  contactFields : List ContactField
  sections : List (String × JValue)

/-- Oracle for Go's `text/template` engine (external library): whether a
template string parses, and what executing it against a content record gives
(`none` = execution error). -/
structure TemplateEngine where
  parseOk : String → Bool
  exec : String → Content → Option String

/-- `utils.ResolveTemplate`: a string without a `\x7b\x7b` marker is returned
unchanged; a parse failure or an execution failure also returns the original
string; otherwise the executed output. -/
def ResolveTemplate (eng : TemplateEngine) (templateStr : String) (content : Content) : String :=
  if strContains templateStr "\x7b\x7b" = false then templateStr
  else if eng.parseOk templateStr = false then templateStr
  else
    match eng.exec templateStr content with
    | none => templateStr
    | some out => out

/-! ## Raster dimension computation (`convertSVGToPNG`, both programs) -/

/-- Go's `int(x)` conversion on a `float64`: truncation toward zero, modelled
exactly on `ℚ`. -/
def goTrunc (q : ℚ) : ℤ := q.num.tdiv q.den

/-- The dimension computation of `convertSVGToPNG`: the larger view-box side
is mapped to `maxSize` and the other side is scaled by the same factor and
converted with Go's truncating `int(...)` conversion. -/
def rasterDims (svgWidth svgHeight : ℚ) (maxSize : ℤ) : ℤ × ℤ :=
  if svgHeight ≤ svgWidth then
    (maxSize, goTrunc ((maxSize : ℚ) * svgHeight / svgWidth))
  else
    (goTrunc ((maxSize : ℚ) * svgWidth / svgHeight), maxSize)

/-! ## Draw-command model

A `Row` of given height holds ordered `Col`umns of width-weight `size`, each
holding primitive components.  The font/size/color/alignment props attached to
text primitives in the source feed only the PDF backend and are not inspected
by any claim; `Component.text` carries the rendered string and the optional
hyperlink. -/

/-- A primitive placed in a column: text (with optional hyperlink), an image
loaded from a cached raster file, or a horizontal divider line. -/
inductive Component where
  | text (content : String) (hyperlink : Option String)
  | imageFile (path : String)
  | horizontalLine
deriving DecidableEq, Repr

/-- `core.Col`: a width-weight and the components added to it. -/
structure Col where
  size : Nat
  comps : List Component
deriving DecidableEq, Repr

/-- One `mrt.AddRow(height, cols...)` draw command. -/
structure Row where
  height : ℚ
  cols : List Col
deriving DecidableEq, Repr

/-! ## Configuration model (`utils.Config`)

The `pdf` page-geometry block is consumed only by the unmodelled PDF-backend
glue (`generatePDF`) and is omitted; every field read during composition is
present.  Go maps are association lists; a plain Go map read yields the zero
value of the element type when the key is absent. -/

/-- `utils.FontDefinition`. -/
structure FontDefinition where
  family : String
  size : ℚ
  style : String
  color : String
deriving DecidableEq, Repr

/-- Zero value of `FontDefinition`, produced by a missing Go map key. -/
def FontDefinition.zero : FontDefinition := ⟨"", 0, "", ""⟩

/-- `utils.SectionTemplate`. -/
structure SectionTemplate where
  spacing : String
  font : String
  iconSize : ℤ
  titleSpacing : String
  itemSpacing : String
deriving DecidableEq, Repr

/-- Zero value of `SectionTemplate`. -/
def SectionTemplate.zero : SectionTemplate := ⟨"", "", 0, "", ""⟩

/-- `utils.SectionConfig`. -/
structure SectionConfig where
  template : String
  title : String
  icon : Option String
  enabled : Bool
deriving DecidableEq, Repr

/-- `utils.IconConfig`. -/
structure IconConfig where
  svgPaths : List String
  outputDir : String
  defaultSize : ℤ
  color : String
  mappings : List (String × String)
deriving DecidableEq, Repr

/-- `utils.Config` (minus the backend-only `pdf` block). -/
structure Config where
  spacing : List (String × ℚ)
  fonts : List (String × FontDefinition)
  colors : List (String × String)
  icons : IconConfig
  sectionTemplates : List (String × SectionTemplate)
  sections : List (String × SectionConfig)

/-! ## Icon asset pipeline (`utils`)

Filesystem state is explicit: a flat association list from path to file
contents (`os.MkdirAll` directory creation has no observable effect in this
flat namespace).  The external `oksvg`/`rasterx` libraries are an oracle:
`parseViewBox` is `oksvg.ReadIconStream` followed by reading the view box
(`none` = parse error), `render` stands for rasterizing and PNG-encoding. -/

/-- Explicit filesystem: path to contents. -/
structure FileSys where
  files : List (String × String)

/-- `os.Stat` success test. -/
def FileSys.hasFile (fs : FileSys) (p : String) : Bool := (lookupStr fs.files p).isSome

/-- `os.ReadFile`. -/
def FileSys.readFile (fs : FileSys) (p : String) : Option String := lookupStr fs.files p

/-- `os.Create` + write: the new contents shadow any previous file at `p`. -/
def FileSys.writeFile (fs : FileSys) (p c : String) : FileSys := ⟨(p, c) :: fs.files⟩

/-- Mutable world threaded through the pipeline: the filesystem plus the
`log.Printf` side channel (most recent message first). -/
structure PipelineState where
  fs : FileSys
  logs : List String

/-- Oracle for the external SVG parse/rasterize libraries. -/
structure SVGEngine where
  parseViewBox : String → Option (ℚ × ℚ)
  render : String → ℤ × ℤ → String

/-- `filepath.Join` for the dir/file shapes used here. -/
def joinPath (dir name : String) : String := dir ++ "/" ++ name

/-- The textual recoloring block of `utils.convertSVGToPNG`: rewrite
`currentColor` and default-black fills to the requested color and, when no
fill attribute occurs at all (case-insensitively), inject one onto
shape-drawing elements. -/
def applyIconColor (svgData : String) (colorHex : String) : String :=
  if colorHex ≠ "" then
    let color := trimLeading colorHex "#"
    if color.length = 6 then
      let fill := "fill=\"#" ++ color ++ "\""
      let s := svgData.replace "fill=\"currentColor\"" fill
      let s := s.replace "fill=\x27currentColor\x27" fill
      let s := s.replace "fill=\"#000\"" fill
      let s := s.replace "fill=\"#000000\"" fill
      let s := s.replace "fill=\"black\"" fill
      if strContains s.toLower "fill=\"" = false ∧ strContains s.toLower "fill=\x27" = false then
        let s := s.replace "<path " ("<path " ++ fill ++ " ")
        let s := s.replace "<Path " ("<Path " ++ fill ++ " ")
        let s := s.replace "<PATH " ("<PATH " ++ fill ++ " ")
        let s := s.replace "<circle " ("<circle " ++ fill ++ " ")
        let s := s.replace "<Circle " ("<Circle " ++ fill ++ " ")
        let s := s.replace "<rect " ("<rect " ++ fill ++ " ")
        s.replace "<polygon " ("<polygon " ++ fill ++ " ")
      else s
    else svgData
  else svgData

/-- `utils.convertSVGToPNG`: read the vector file, recolor, parse, compute
raster dimensions, rasterize and write the PNG at `pngPath`. -/
def convertSVGToPNG (eng : SVGEngine) (svgPath pngPath : String) (maxSize : ℤ)
    (colorHex : String) (st : PipelineState) : Except String Unit × PipelineState :=
  match st.fs.readFile svgPath with
  | none => (Except.error "failed to read SVG file", st)
  | some svgData =>
    let svgContent := applyIconColor svgData colorHex
    match eng.parseViewBox svgContent with
    | none => (Except.error "failed to parse SVG", st)
    | some wh =>
      let dims := rasterDims wh.1 wh.2 maxSize
      (Except.ok (), { st with fs := st.fs.writeFile pngPath (eng.render svgContent dims) })

/-- The `"000000"`-defaulted color suffix used in cache file names. -/
def colorFileSuffix (colorHex : String) : String :=
  let s := trimLeading colorHex "#"
  if s = "" then "000000" else s

/-- `fmt.Sprintf("%s_%s_%dpx.png", stem, colorSuffix, size)`. -/
def iconPNGName (stem colorHex : String) (size : ℤ) : String :=
  stem ++ "_" ++ colorFileSuffix colorHex ++ "_" ++ toString size ++ "px.png"

/-- `utils.convertColoredIcon`: first search directory containing
`<stem>.svg` wins; none found is an error. -/
def convertColoredIcon (eng : SVGEngine) (iconName : String) (svgPaths : List String)
    (outputDir : String) (size : ℤ) (colorHex : String) (st : PipelineState) :
    Except String Unit × PipelineState :=
  match svgPaths with
  | [] => (Except.error ("icon " ++ iconName ++ " not found in any configured SVG paths"), st)
  | svgPath :: rest =>
    let fullSvgPath := joinPath svgPath (iconName ++ ".svg")
    if st.fs.hasFile fullSvgPath then
      convertSVGToPNG eng fullSvgPath (joinPath outputDir (iconPNGName iconName colorHex size))
        size colorHex st
    else convertColoredIcon eng iconName rest outputDir size colorHex st

/-- The deterministic cache path of `EnsureColoredIconExists`: output dir plus
`<stem>_<colorSuffix>_<defaultSize>px.png`, a pure function of its inputs. -/
def iconCachePath (iconConfig : IconConfig) (stem colorHex : String) : String :=
  joinPath iconConfig.outputDir (iconPNGName stem colorHex iconConfig.defaultSize)

/-- `utils.EnsureColoredIconExists`: mapping lookup, deterministic cache path,
cache-hit short circuit, conversion with logged non-fatal failure. -/
def EnsureColoredIconExists (eng : SVGEngine) (iconName : String) (iconConfig : IconConfig)
    (colorHex : String) (st : PipelineState) : String × PipelineState :=
  if iconName = "" then ("", st)
  else
    match lookupStr iconConfig.mappings iconName with
    | none => ("", st)
    | some iconFileName =>
      let pngPath := iconCachePath iconConfig iconFileName colorHex
      if st.fs.hasFile pngPath then (pngPath, st)
      else
        match convertColoredIcon eng iconFileName iconConfig.svgPaths iconConfig.outputDir
            iconConfig.defaultSize colorHex st with
        | (Except.ok _, st') => (pngPath, st')
        | (Except.error e, st') =>
          ("", { st' with logs := ("Could not convert icon " ++ iconName ++ ": " ++ e) :: st'.logs })

/-- `utils.EnsureIconExists`: resolve the configured color reference through
the palette (one indirection, literal fallback, empty when unconfigured). -/
def EnsureIconExists (eng : SVGEngine) (iconName : String) (iconConfig : IconConfig)
    (colors : List (String × String)) (st : PipelineState) : String × PipelineState :=
  let colorHex :=
    if iconConfig.color ≠ "" then
      match lookupStr colors iconConfig.color with
      | some colorValue => colorValue
      | none => iconConfig.color
    else ""
  EnsureColoredIconExists eng iconName iconConfig colorHex st

/-- `utils.CreateColoredIcon`: an image component on success, an empty text
component (plus a log line) when no icon could be produced. -/
def CreateColoredIcon (eng : SVGEngine) (iconName : String) (cfg : Config) (size : ℤ)
    (st : PipelineState) : Component × PipelineState :=
  let r := EnsureIconExists eng iconName cfg.icons cfg.colors st
  if r.1 = "" then
    (Component.text "" none, { r.2 with logs := ("Could not create icon for " ++ iconName) :: r.2.logs })
  else (Component.imageFile r.1, r.2)

/-- `utils.AddSectionTitle`: an optional 1-wide icon column followed by the
title column (width 11 with icon, 12 without). -/
def AddSectionTitle (eng : SVGEngine) (cfg : Config) (sectionCfg : SectionConfig)
    (template : SectionTemplate) (st : PipelineState) : Row × PipelineState :=
  let titleSpacing := lookupD cfg.spacing template.titleSpacing 0
  let titleComp := Component.text sectionCfg.title none
  match sectionCfg.icon with
  | some ic =>
    if ic ≠ "" then
      let iconSize := if template.iconSize = 0 then 60 else template.iconSize
      let r := CreateColoredIcon eng ic cfg iconSize st
      (⟨titleSpacing, [⟨1, [r.1]⟩, ⟨11, [titleComp]⟩]⟩, r.2)
    else (⟨titleSpacing, [⟨12, [titleComp]⟩]⟩, st)
  | none => (⟨titleSpacing, [⟨12, [titleComp]⟩]⟩, st)

/-- `utils.CreateContactFieldCol`: one width-4 column per contact field —
empty when the template-resolved content is the empty string, otherwise the
text component (hyperlinked for `type == "link"`) preceded by an icon image
component when the icon pipeline produced a path. -/
def CreateContactFieldCol (eng : SVGEngine) (teng : TemplateEngine) (field : ContactField)
    (cfg : Config) (content : Content) (st : PipelineState) : Col × PipelineState :=
  let fieldContent := ResolveTemplate teng field.content content
  if fieldContent = "" then (⟨4, []⟩, st)
  else
    let r := EnsureIconExists eng field.icon cfg.icons cfg.colors st
    let mainComp : Component :=
      match field.type, field.link with
      | some t, some l =>
        if t = "link" then Component.text fieldContent (some (ResolveTemplate teng l content))
        else Component.text fieldContent none
      | _, _ => Component.text fieldContent none
    if r.1 ≠ "" then
      let contactTemplate := lookupD cfg.sectionTemplates "contact" SectionTemplate.zero
      let iconSize := if contactTemplate.iconSize = 0 then 60 else contactTemplate.iconSize
      let r2 := CreateColoredIcon eng field.icon cfg iconSize r.2
      (⟨4, [r2.1, mainComp]⟩, r2.2)
    else (⟨4, [mainComp]⟩, r.2)

/-- Columns of one group of up to three contact fields, threading state left
to right as the loop body does. -/
def contactGroupCols (eng : SVGEngine) (teng : TemplateEngine) (cfg : Config) (content : Content) :
    List ContactField → PipelineState → List Col × PipelineState
  | [], st => ([], st)
  | f :: rest, st =>
    let r := CreateContactFieldCol eng teng f cfg content st
    let rr := contactGroupCols eng teng cfg content rest r.2
    (r.1 :: rr.1, rr.2)

/-- The `for i := 0; i < len; i += 3` loop of `buildContactSection`: each
iteration takes the next up-to-three fields, builds their columns, and emits
one row when at least one column was collected. -/
def buildContactRows (eng : SVGEngine) (teng : TemplateEngine) (cfg : Config) (content : Content)
    (contactSpacing : ℚ) : List ContactField → PipelineState → List Row × PipelineState
  | [], st => ([], st)
  | [a], st =>
    let g := contactGroupCols eng teng cfg content [a] st
    ((if g.1.length > 0 then [⟨contactSpacing, g.1⟩] else []), g.2)
  | [a, b], st =>
    let g := contactGroupCols eng teng cfg content [a, b] st
    ((if g.1.length > 0 then [⟨contactSpacing, g.1⟩] else []), g.2)
  | a :: b :: c :: rest, st =>
    let g := contactGroupCols eng teng cfg content [a, b, c] st
    let r := buildContactRows eng teng cfg content contactSpacing rest g.2
    ((if g.1.length > 0 then [⟨contactSpacing, g.1⟩] else []) ++ r.1, r.2)

/-- `templates.buildContactSection`. -/
def buildContactSection (eng : SVGEngine) (teng : TemplateEngine) (cfg : Config)
    (content : Content) (st : PipelineState) : List Row × PipelineState :=
  let contactTemplate := lookupD cfg.sectionTemplates "contact" SectionTemplate.zero
  let contactSpacing := lookupD cfg.spacing contactTemplate.spacing 0
  buildContactRows eng teng cfg content contactSpacing content.contactFields st

/-- `templates.buildSimpleListSection`: title row, then — depending on the
dynamic type of the payload — a text row for an object carrying a string
`content` field, or the collected strings of an array joined with
`" | "` (one row, only when at least one string was collected). -/
def buildSimpleListSection (eng : SVGEngine) (cfg : Config) (sectionCfg : SectionConfig)
    (sectionData : JValue) (st : PipelineState) : List Row × PipelineState :=
  let template := lookupD cfg.sectionTemplates sectionCfg.template SectionTemplate.zero
  let tr := AddSectionTitle eng cfg sectionCfg template st
  let bodySpacing := lookupD cfg.spacing template.spacing 0
  let bodyRows : List Row :=
    match sectionData with
    | JValue.obj fields =>
      match lookupStr fields "content" with
      | some (JValue.str c) => [⟨bodySpacing, [⟨12, [Component.text c none]⟩]⟩]
      | _ => []
    | JValue.arr data =>
      let items := data.filterMap (fun v => match v with | JValue.str s => some s | _ => none)
      if items.length > 0 then
        [⟨bodySpacing, [⟨12, [Component.text (String.intercalate " | " items) none]⟩]⟩]
      else []
    | _ => []
  (tr.1 :: bodyRows, tr.2)

/-! ## `main.go`: sections, renderer registry, ordering

The standalone composer.  Its renderers read untyped payload maps; the style
configuration feeds only the dropped text props (sizes and colors), so
renderers are functions from the section alone to draw commands. -/

/-- `main.go`'s `Section`: type tag, title, order, enabled flag, payload map. -/
structure MSection where
  type : String
  title : String
  order : ℤ
  enabled : Bool
  data : List (String × JValue)

/-- `main.go`'s `getString`: string field of a payload map, `""` when absent
or not a string. -/
def getString (data : List (String × JValue)) (key : String) : String :=
  match lookupStr data key with
  | some (JValue.str v) => v
  | _ => ""

/-- `main.go`'s `addMarotoSection`: the height-12 title row of a section. -/
def addMarotoSection (title : String) : Row :=
  ⟨12, [⟨12, [Component.text title none]⟩]⟩

/-- `TextSection.Render`: title row, then the `content` string if present. -/
def TextSectionRender (sec : MSection) : List Row :=
  addMarotoSection sec.title ::
    (match lookupStr sec.data "content" with
     | some (JValue.str c) => [⟨8, [⟨12, [Component.text c none]⟩]⟩]
     | _ => [])

/-- Rows for one experience item: bold title line when both `title` and
`company` are present, italic location/date line, bullet rows. -/
def expItemRows (exp : List (String × JValue)) : List Row :=
  let title := getString exp "title"
  let company := getString exp "company"
  let titleRows : List Row :=
    if title ≠ "" ∧ company ≠ "" then
      [⟨8, [⟨12, [Component.text (title ++ " - " ++ company) none]⟩]⟩]
    else []
  let location := getString exp "location"
  let startDate := getString exp "start_date"
  let endDate := getString exp "end_date"
  let locationAndDates :=
    if startDate ≠ "" ∨ endDate ≠ "" then location ++ " | " ++ startDate ++ " - " ++ endDate
    else location
  let locRows : List Row :=
    if locationAndDates ≠ "" then
      [⟨6, [⟨12, [Component.text locationAndDates none]⟩]⟩]
    else []
  let descRows : List Row :=
    match lookupStr exp "description" with
    | some (JValue.arr ds) =>
      ds.filterMap (fun d =>
        match d with
        | JValue.str s => some (⟨6, [⟨12, [Component.text ("• " ++ s) none]⟩]⟩ : Row)
        | _ => none)
    | _ => []
  titleRows ++ locRows ++ descRows

/-- `ExperienceSection.Render`. -/
def ExperienceSectionRender (sec : MSection) : List Row :=
  addMarotoSection sec.title ::
    (match lookupStr sec.data "items" with
     | some (JValue.arr items) =>
       items.flatMap (fun it => match it with | JValue.obj exp => expItemRows exp | _ => [])
     | _ => [])

/-- Rows for one education item: degree/institution line and location/date
line (no bullets). -/
def eduItemRows (edu : List (String × JValue)) : List Row :=
  let degree := getString edu "degree"
  let institution := getString edu "institution"
  let titleRows : List Row :=
    if degree ≠ "" ∧ institution ≠ "" then
      [⟨8, [⟨12, [Component.text (degree ++ " - " ++ institution) none]⟩]⟩]
    else []
  let location := getString edu "location"
  let startDate := getString edu "start_date"
  let endDate := getString edu "end_date"
  let locationAndDates :=
    if startDate ≠ "" ∨ endDate ≠ "" then location ++ " | " ++ startDate ++ " - " ++ endDate
    else location
  let locRows : List Row :=
    if locationAndDates ≠ "" then
      [⟨6, [⟨12, [Component.text locationAndDates none]⟩]⟩]
    else []
  titleRows ++ locRows

/-- `EducationSection.Render`. -/
def EducationSectionRender (sec : MSection) : List Row :=
  addMarotoSection sec.title ::
    (match lookupStr sec.data "items" with
     | some (JValue.arr items) =>
       items.flatMap (fun it => match it with | JValue.obj edu => eduItemRows edu | _ => [])
     | _ => [])

/-- `SkillsSection.Render`: the string items joined with `" • "`. -/
def SkillsSectionRender (sec : MSection) : List Row :=
  addMarotoSection sec.title ::
    (match lookupStr sec.data "items" with
     | some (JValue.arr items) =>
       let skills := items.filterMap (fun it => match it with | JValue.str s => some s | _ => none)
       if skills.length > 0 then
         [⟨8, [⟨12, [Component.text (String.intercalate " • " skills) none]⟩]⟩]
       else []
     | _ => [])

/-- `main.go`'s `createSectionRegistry`: the five registered type tags
(`summary` and `text` alias the plain-text renderer). -/
def createSectionRegistry : List (String × (MSection → List Row)) :=
  [("text", TextSectionRender),
   ("summary", TextSectionRender),
   ("experience", ExperienceSectionRender),
   ("education", EducationSectionRender),
   ("skills", SkillsSectionRender)]

/-- Inner loop of `main.go`'s all-pairs sort at one outer index: compare the
running candidate `x` (position `i`) against each later element; on
`x.order > y.order` they swap, the larger element staying behind at the
compared position. -/
def selectMin (x : MSection) : List MSection → MSection × List MSection
  | [] => (x, [])
  | y :: ys =>
    if x.order > y.order then
      let p := selectMin y ys
      (p.1, x :: p.2)
    else
      let p := selectMin x ys
      (p.1, y :: p.2)

/-- Outer loop of the all-pairs sort, structurally: after the inner loop the
minimum sits at the front; recurse on the remainder.  Fuel equals the list
length at the top call. -/
def swapSortFuel : Nat → List MSection → List MSection
  | 0, ss => ss
  | _ + 1, [] => []
  | n + 1, x :: xs =>
    let p := selectMin x xs
    p.1 :: swapSortFuel n p.2

/-- The section sort of `buildResumePage` (ascending by `order`). -/
def swapSort (ss : List MSection) : List MSection := swapSortFuel ss.length ss

/-- Is the section's type tag registered? -/
def sectionRegistered (s : MSection) : Bool := (lookupStr createSectionRegistry s.type).isSome

/-- The sections that the render loop of `buildResumePage` actually renders,
in render order: sorted, enabled, carrying a registered type tag. -/
def renderedSections (ss : List MSection) : List MSection :=
  (swapSort ss).filter (fun s => s.enabled && sectionRegistered s)

/-- The dynamic-sections render loop of `buildResumePage`: sort, then for each
enabled section with a registered renderer append that renderer's commands. -/
def buildResumeSections (ss : List MSection) : List Row :=
  (swapSort ss).foldl (fun acc s =>
    if s.enabled then
      match lookupStr createSectionRegistry s.type with
      | some r => acc ++ r s
      | none => acc
    else acc) []

/-- Commands of one rendered section (empty for an unregistered tag). -/
def renderSectionCmds (s : MSection) : List Row :=
  match lookupStr createSectionRegistry s.type with
  | some r => r s
  | none => []

/-! ## Chunking view of the contact loop -/

/-- Specification-side chunking of a list into runs of three (a shorter final
run allowed); the contact loop is proved below to emit exactly one row per
chunk. -/
def chunks3 {α : Type} : List α → List (List α)
  | [] => []
  | [a] => [[a]]
  | [a, b] => [[a, b]]
  | a :: b :: c :: rest => [a, b, c] :: chunks3 rest

/-! ## Concrete fixtures shared by witnesses and counterexamples -/

/-- SVG oracle whose parse always fails — any theorem evaluated with it that
still produces output shows no parse work was performed. -/
def engNone : SVGEngine := ⟨fun _ => none, fun _ _ => ""⟩

/-- Template oracle that never parses: every contact string is literal. -/
def tengNone : TemplateEngine := ⟨fun _ => false, fun _ _ => none⟩

/-- The spec's end-to-end persona. -/
def personalEx : PersonalInfo := ⟨"Jane Doe", "", "", "", "", "", ""⟩

/-- Icon configuration with one mapped key, one search dir, size 32 and no
configured color. -/
def iconCfgEx : IconConfig := ⟨["svgs"], "icons", 32, "", [("email", "envelope")]⟩

/-- A small style configuration exercising the templates the claims mention. -/
def cfgEx : Config :=
  ⟨[("small", 6), ("medium", 8)],
   [("contact_font", ⟨"Helvetica", 10, "", "text"⟩)],
   [("secondary", "#34495E")],
   iconCfgEx,
   [("contact", ⟨"small", "contact_font", 0, "", ""⟩),
    ("simple_list", ⟨"small", "body", 0, "medium", ""⟩)],
   []⟩

/-- Filesystem already holding the cached raster for the `email` icon at the
path the pipeline computes for `iconCfgEx` with no color. -/
def fsWithPNG : FileSys := ⟨[("icons/envelope_000000_32px.png", "PNG")]⟩

/-- Pipeline state with the warm cache above. -/
def stEx : PipelineState := ⟨fsWithPNG, []⟩

/-- Icon configuration mapping `email` but with *no* search directories, so
any conversion attempt fails with the not-found error. -/
def iconCfgNoSrc : IconConfig := ⟨[], "icons", 32, "", [("email", "envelope")]⟩

/-- Pipeline state over an empty filesystem. -/
def stEmpty : PipelineState := ⟨⟨[]⟩, []⟩

/-- A populated contact field whose icon resolves through the warm cache. -/
def fieldEmail : ContactField := ⟨"email", "jane@x.com", "email", none, none⟩

/-- A contact field with empty content. -/
def fieldEmptyC : ContactField := ⟨"phone", "", "", none, none⟩

/-- A populated contact field whose icon key is not mapped. -/
def fieldNoIcon : ContactField := ⟨"website", "x.dev", "globe", none, none⟩

/-- Content with one populated and one empty contact field. -/
def contentEx : Content := ⟨personalEx, [fieldEmail, fieldEmptyC], []⟩

/-- Content whose only contact field has empty content. -/
def contentEmptyOnly : Content := ⟨personalEx, [fieldEmptyC], []⟩

/-- Content whose only contact field is populated with a cached icon. -/
def contentEmailOnly : Content := ⟨personalEx, [fieldEmail], []⟩

/-- The skills section configuration routed to the simple-list template. -/
def scSkills : SectionConfig := ⟨"simple_list", "Skills", none, true⟩

/-- `main.go` skills section with payload `\x7bitems: ["Go", "Rust"]\x7d`. -/
def skillsSec : MSection :=
  ⟨"skills", "Skills", 2, true, [("items", JValue.arr [JValue.str "Go", JValue.str "Rust"])]⟩

/-- An enabled section with the unregistered tag `hobbies`. -/
def hobbiesSec : MSection := ⟨"hobbies", "Hobbies", 1, true, []⟩

/-- Sections with order values [3,1,2] under tags [skills, experience,
education], all enabled. -/
def ssOrderEx : List MSection :=
  [⟨"skills", "Skills", 3, true, []⟩,
   ⟨"experience", "Experience", 1, true, []⟩,
   ⟨"education", "Education", 2, true, []⟩]

/-! ## Theorems -/

/-- The fold step of `parseInt`, applied: on a rune the spec-side digit reader
accepts with value `d`, the step multiplies the accumulator by 16 and adds
`d`. -/
lemma parseStepApplied (acc : Nat) (c : Char) (d : Nat) (hd : hexDigitVal? c = some d) :
    (if '0' ≤ c ∧ c ≤ '9' then acc * 16 + (c.toNat - '0'.toNat)
     else if 'a' ≤ c ∧ c ≤ 'f' then acc * 16 + (c.toNat - 'a'.toNat + 10)
     else if 'A' ≤ c ∧ c ≤ 'F' then acc * 16 + (c.toNat - 'A'.toNat + 10)
     else acc * 16) = acc * 16 + d := by
  unfold hexDigitVal? at hd
  split_ifs at hd ⊢ <;> simp_all

/-- On a list the spec-side hex reader accepts, the code's `parseInt` fold
computes positional base-16 from any starting accumulator. -/
lemma parseIntChars_hexVal : ∀ (cs : List Char) (v : Nat), hexVal? cs = some v →
    ∀ acc : Nat,
      List.foldl (fun result c =>
        let r := result * 16
        if '0' ≤ c ∧ c ≤ '9' then r + (c.toNat - '0'.toNat)
        else if 'a' ≤ c ∧ c ≤ 'f' then r + (c.toNat - 'a'.toNat + 10)
        else if 'A' ≤ c ∧ c ≤ 'F' then r + (c.toNat - 'A'.toNat + 10)
        else r) acc cs = acc * 16 ^ cs.length + v := by
  intro cs
  induction cs with
  | nil =>
    intro v hv acc
    simp only [hexVal?, Option.some.injEq] at hv
    simp [← hv]
  | cons c cs ih =>
    intro v hv acc
    simp only [hexVal?] at hv
    cases hd : hexDigitVal? c with
    | none =>
      rw [hd] at hv
      have hv' : (none : Option Nat) = some v := hv
      exact absurd hv' (by simp)
    | some d =>
      cases hw : hexVal? cs with
      | none =>
        rw [hd, hw] at hv
        have hv' : (none : Option Nat) = some v := hv
        exact absurd hv' (by simp)
      | some w =>
        rw [hd, hw] at hv
        have hv' : d * 16 ^ cs.length + w = v :=
          Option.some.inj hv
        simp only [List.foldl_cons]
        rw [parseStepApplied acc c d hd, ih w hw (acc * 16 + d), ← hv']
        simp only [List.length_cons, pow_succ]
        ring

/-- `parseInt` agrees with the spec-side base-16 value on accepted input. -/
lemma parseIntChars_eq_of_hexVal {cs : List Char} {n : Nat} (h : hexVal? cs = some n) :
    parseIntChars cs = n := by
  have := parseIntChars_hexVal cs n h 0
  simpa [parseIntChars] using this

/-- **C1** (amended): `HexToColor` strips one leading `#`; a remainder whose
length differs from six yields black; a six-character remainder is parsed as
three two-character slices, so every valid six-hex-digit remainder yields
exactly the RGB triple it denotes (`"2C3E50"` ↦ (44,62,80)).  A six-character
remainder containing non-hex characters is, however, parsed with those
characters contributing no digit value and is not necessarily black (see the
counterexample). -/
theorem hexToColor_spec (s : String) :
    ((trimLeading s "#").length ≠ 6 → HexToColor s = ⟨0, 0, 0⟩) ∧
    (∀ r g b : Nat,
      (trimLeading s "#").length = 6 →
      hexVal? ((trimLeading s "#").toList.take 2) = some r →
      hexVal? (((trimLeading s "#").toList.drop 2).take 2) = some g →
      hexVal? (((trimLeading s "#").toList.drop 4).take 2) = some b →
      HexToColor s = ⟨r, g, b⟩) ∧
    HexToColor "2C3E50" = ⟨44, 62, 80⟩ := by
  refine ⟨?_, ?_, by decide⟩
  · intro h
    simp [HexToColor, h]
  · intro r g b hlen hr hg hb
    have hne : ¬(trimLeading s "#").length ≠ 6 := by simp [hlen]
    simp only [HexToColor]
    rw [if_neg hne, parseIntChars_eq_of_hexVal hr, parseIntChars_eq_of_hexVal hg,
      parseIntChars_eq_of_hexVal hb]

/-- **C1** witness: the length guard at `"ABC"` and the valid-hex clause at
`"#34495E"`, instantiating `hexToColor_spec` concretely. -/
theorem hexToColor_spec_witness :
    HexToColor "ABC" = ⟨0, 0, 0⟩ ∧ HexToColor "#34495E" = ⟨52, 73, 94⟩ :=
  ⟨(hexToColor_spec "ABC").1 (by decide),
   (hexToColor_spec "#34495E").2.1 52 73 94 (by decide) (by decide) (by decide) (by decide)⟩

/-- **C1** counterexample: `"FFZZZZ"` is not a six-hex-digit string (the
spec-side reading rejects it), yet `HexToColor` returns (255,0,0) — the claim
that every such string maps to black is false. -/
theorem hexToColor_claim_cex :
    hexVal? (trimLeading "FFZZZZ" "#").toList = none ∧
    HexToColor "FFZZZZ" = ⟨255, 0, 0⟩ ∧
    HexToColor "FFZZZZ" ≠ ⟨0, 0, 0⟩ := by decide

/-- **C5**: `ResolveColor` resolves a palette key to that entry's hex value
with exactly one level of indirection — a palette value that is itself a key
is *not* chased (the chained-palette conjuncts) — and otherwise treats the
name as a hex literal, so `"secondary"` under `(secondary ↦ #34495E)` and the
bare literal `"34495E"` denote the same RGB. -/
theorem resolveColor_contract (name : String) (colors : List (String × String)) :
    (∀ v, lookupStr colors name = some v → ResolveColor name colors = HexToColor v) ∧
    (lookupStr colors name = none → ResolveColor name colors = HexToColor name) ∧
    ResolveColor "secondary" [("secondary", "#34495E")] = ResolveColor "34495E" [] ∧
    ResolveColor "secondary" [("secondary", "#34495E")] = ⟨52, 73, 94⟩ ∧
    ResolveColor "a" [("a", "b"), ("b", "#FF0000")] = HexToColor "b" ∧
    ResolveColor "a" [("a", "b"), ("b", "#FF0000")] ≠ ⟨255, 0, 0⟩ := by
  refine ⟨?_, ?_, by decide, by decide, by decide, by decide⟩
  · intro v hv; simp [ResolveColor, hv]
  · intro hv; simp [ResolveColor, hv]

/-- **C5** witness: both branches of `resolveColor_contract` instantiated at
the spec's own example inputs. -/
theorem resolveColor_contract_witness :
    ResolveColor "secondary" [("secondary", "#34495E")] = HexToColor "#34495E" ∧
    ResolveColor "34495E" [] = HexToColor "34495E" :=
  ⟨(resolveColor_contract "secondary" [("secondary", "#34495E")]).1 "#34495E" (by decide),
   (resolveColor_contract "34495E" []).2.1 (by decide)⟩

/-- **C10**: `ResolveTemplate` is total and falls back to the untouched input:
a string without a `\x7b\x7b` marker is returned unchanged, a template-parse
failure or a template-execution failure returns the original string, and in
every case the result is either the original string or a successful execution
output — never an error and never a partial substitution of its own making. -/
theorem resolveTemplate_fallback (eng : TemplateEngine) (s : String) (c : Content) :
    (strContains s "\x7b\x7b" = false → ResolveTemplate eng s c = s) ∧
    (eng.parseOk s = false → ResolveTemplate eng s c = s) ∧
    (eng.exec s c = none → ResolveTemplate eng s c = s) ∧
    (ResolveTemplate eng s c = s ∨
      ∃ out, eng.exec s c = some out ∧ ResolveTemplate eng s c = out) := by
  refine ⟨?_, ?_, ?_, ?_⟩
  · intro h; simp [ResolveTemplate, h]
  · intro h
    by_cases h1 : strContains s "\x7b\x7b" = false <;> simp [ResolveTemplate, h1, h]
  · intro h
    by_cases h1 : strContains s "\x7b\x7b" = false <;>
      by_cases h2 : eng.parseOk s = false <;> simp [ResolveTemplate, h1, h2, h]
  · by_cases h1 : strContains s "\x7b\x7b" = false
    · exact Or.inl (by simp [ResolveTemplate, h1])
    · by_cases h2 : eng.parseOk s = false
      · exact Or.inl (by simp [ResolveTemplate, h1, h2])
      · cases h3 : eng.exec s c with
        | none => exact Or.inl (by simp [ResolveTemplate, h1, h2, h3])
        | some out => exact Or.inr ⟨out, rfl, by simp [ResolveTemplate, h1, h2, h3]⟩

/-- **C10** witness: the marker-free clause, the parse-failure clause and the
execution-failure clause each instantiated concretely. -/
theorem resolveTemplate_fallback_witness :
    ResolveTemplate tengNone "jane@x.com" contentEx = "jane@x.com" ∧
    ResolveTemplate ⟨fun _ => false, fun _ _ => none⟩ "\x7b\x7b.Personal.Name\x7d\x7d" contentEx
      = "\x7b\x7b.Personal.Name\x7d\x7d" ∧
    ResolveTemplate ⟨fun _ => true, fun _ _ => none⟩ "\x7b\x7b.Personal.Name\x7d\x7d" contentEx
      = "\x7b\x7b.Personal.Name\x7d\x7d" :=
  ⟨(resolveTemplate_fallback tengNone "jane@x.com" contentEx).1 (by decide),
   (resolveTemplate_fallback ⟨fun _ => false, fun _ _ => none⟩
     "\x7b\x7b.Personal.Name\x7d\x7d" contentEx).2.1 rfl,
   (resolveTemplate_fallback ⟨fun _ => true, fun _ _ => none⟩
     "\x7b\x7b.Personal.Name\x7d\x7d" contentEx).2.2.1 rfl⟩

/-- Go truncation of an integer-valued rational is that integer. -/
lemma goTrunc_intCast (n : ℤ) : goTrunc (n : ℚ) = n := by
  simp [goTrunc, Rat.num_intCast, Rat.den_intCast, Int.tdiv_one]

/-- On nonnegative values Go truncation coincides with the floor. -/
lemma goTrunc_eq_floor {q : ℚ} (h : 0 ≤ q) : goTrunc q = ⌊q⌋ := by
  rw [goTrunc, Int.tdiv_eq_ediv (Rat.num_nonneg.mpr h) (Int.natCast_nonneg _)]
  exact Rat.floor_def.symm

/-- **C3** (amended): for a positive view box W×H and positive requested size
S, the larger side maps exactly to S, and the smaller side is the exact
proportional value *truncated toward zero* (equivalently, its floor) — hence
within 1 pixel below the exact value, so the 512×448 box at size 64 yields
exactly 64×56.  Rounding to the *nearest* integer is refuted separately. -/
theorem rasterDims_spec (w h : ℚ) (s : ℤ) (hw : 0 < w) (hh : 0 < h) (hs : 0 < s) :
    (h ≤ w →
      (rasterDims w h s).1 = s ∧
      (rasterDims w h s).2 = ⌊(s : ℚ) * h / w⌋ ∧
      ((rasterDims w h s).2 : ℚ) ≤ (s : ℚ) * h / w ∧
      (s : ℚ) * h / w - 1 < ((rasterDims w h s).2 : ℚ)) ∧
    (w < h →
      (rasterDims w h s).2 = s ∧
      (rasterDims w h s).1 = ⌊(s : ℚ) * w / h⌋ ∧
      ((rasterDims w h s).1 : ℚ) ≤ (s : ℚ) * w / h ∧
      (s : ℚ) * w / h - 1 < ((rasterDims w h s).1 : ℚ)) ∧
    rasterDims 512 448 64 = (64, 56) := by
  refine ⟨?_, ?_, ?_⟩
  · intro hle
    have hpos : (0 : ℚ) ≤ (s : ℚ) * h / w := by positivity
    have hfst : (rasterDims w h s).1 = s := by simp [rasterDims, if_pos hle]
    have hsnd : (rasterDims w h s).2 = goTrunc ((s : ℚ) * h / w) := by
      simp [rasterDims, if_pos hle]
    refine ⟨hfst, ?_, ?_, ?_⟩
    · rw [hsnd, goTrunc_eq_floor hpos]
    · rw [hsnd, goTrunc_eq_floor hpos]; exact Int.floor_le _
    · rw [hsnd, goTrunc_eq_floor hpos]; exact Int.sub_one_lt_floor _
  · intro hlt
    have hle' : ¬h ≤ w := not_le.mpr hlt
    have hpos : (0 : ℚ) ≤ (s : ℚ) * w / h := by positivity
    have hfst : (rasterDims w h s).2 = s := by simp [rasterDims, if_neg hle']
    have hsnd : (rasterDims w h s).1 = goTrunc ((s : ℚ) * w / h) := by
      simp [rasterDims, if_neg hle']
    refine ⟨hfst, ?_, ?_, ?_⟩
    · rw [hsnd, goTrunc_eq_floor hpos]
    · rw [hsnd, goTrunc_eq_floor hpos]; exact Int.floor_le _
    · rw [hsnd, goTrunc_eq_floor hpos]; exact Int.sub_one_lt_floor _
  · have harg : ((64 : ℤ) : ℚ) * 448 / 512 = ((56 : ℤ) : ℚ) := by norm_num
    simp only [rasterDims, if_pos (show (448 : ℚ) ≤ 512 by norm_num), harg, goTrunc_intCast]

/-- **C3** witness: `rasterDims_spec` instantiated at the spec's own 512×448
view box and size 64. -/
theorem rasterDims_spec_witness :
    (rasterDims 512 448 64).1 = 64 ∧
    (rasterDims 512 448 64).2 = ⌊((64 : ℤ) : ℚ) * 448 / 512⌋ :=
  ⟨((rasterDims_spec 512 448 64 (by norm_num) (by norm_num) (by norm_num)).1 (by norm_num)).1,
   ((rasterDims_spec 512 448 64 (by norm_num) (by norm_num) (by norm_num)).1 (by norm_num)).2.1⟩

/-- **C3** counterexample: at view box 3×2 and requested size 10 the exact
scaled height is 20/3 ≈ 6.67; the code computes 6 (truncation) while the
nearest integer is 7 — so the smaller dimension is *not* rounded to the
nearest integer pixel. -/
theorem rasterDims_round_cex :
    rasterDims 3 2 10 = (10, 6) ∧
    round ((10 : ℚ) * 2 / 3) = 7 ∧
    (rasterDims 3 2 10).2 ≠ round ((10 : ℚ) * 2 / 3) := by
  have harg : ((10 : ℤ) : ℚ) * 2 / 3 = 20 / 3 := by norm_num
  have hfl : goTrunc ((20 : ℚ) / 3) = 6 := by
    rw [goTrunc_eq_floor (by norm_num), Int.floor_eq_iff]
    norm_num
  have h1 : rasterDims 3 2 10 = (10, 6) := by
    simp only [rasterDims, if_pos (show (2 : ℚ) ≤ 3 by norm_num), harg, hfl]
  have h2 : round ((10 : ℚ) * 2 / 3) = 7 := by
    rw [round_eq, show (10 : ℚ) * 2 / 3 + 1 / 2 = 43 / 6 by norm_num,
      Int.floor_eq_iff]
    norm_num
  exact ⟨h1, h2, by rw [h1, h2]; decide⟩

/-- `contactGroupCols` yields exactly one column per field of its group. -/
lemma contactGroupCols_length (eng : SVGEngine) (teng : TemplateEngine) (cfg : Config)
    (content : Content) :
    ∀ (g : List ContactField) (st : PipelineState),
      (contactGroupCols eng teng cfg content g st).1.length = g.length := by
  intro g
  induction g with
  | nil => intro st; rfl
  | cons f rest ih =>
    intro st
    simp [contactGroupCols, ih]

/-- The contact loop emits exactly one row per chunk of up to three fields,
each row holding one column per field of its chunk. -/
lemma buildContactRows_chunks (eng : SVGEngine) (teng : TemplateEngine) (cfg : Config)
    (content : Content) (sp : ℚ) :
    ∀ (fields : List ContactField) (st : PipelineState),
      ((buildContactRows eng teng cfg content sp fields st).1).map (fun r => r.cols.length)
        = (chunks3 fields).map (fun g => g.length)
  | [], _ => rfl
  | [a], st => by
    simp [buildContactRows, chunks3, contactGroupCols_length]
  | [a, b], st => by
    simp [buildContactRows, chunks3, contactGroupCols_length]
  | a :: b :: c :: rest, st => by
    have ih := buildContactRows_chunks eng teng cfg content sp rest
    simp [buildContactRows, chunks3, contactGroupCols_length, ih]

/-- **C2** (amended): the composer walks the ordered contact-field list in
groups of up to three, each group becoming exactly one row with exactly one
width-4 column per field of the group.  A field with empty template-resolved
content contributes an *empty* column (the row is still emitted, its column
holding no components) rather than no column, and a populated field
contributes a *single* column holding its optional icon image component
before its text component in the same column. -/
theorem buildContactSection_spec (eng : SVGEngine) (teng : TemplateEngine) (cfg : Config)
    (content : Content) (st : PipelineState) :
    ((buildContactSection eng teng cfg content st).1).map (fun r => r.cols.length)
      = (chunks3 content.contactFields).map (fun g => g.length) ∧
    (CreateContactFieldCol engNone tengNone fieldEmptyC cfgEx contentEx stEx).1 = ⟨4, []⟩ ∧
    (CreateContactFieldCol engNone tengNone fieldEmail cfgEx contentEx stEx).1
      = ⟨4, [Component.imageFile "icons/envelope_000000_32px.png",
             Component.text "jane@x.com" none]⟩ ∧
    (CreateContactFieldCol engNone tengNone fieldNoIcon cfgEx contentEx stEx).1
      = ⟨4, [Component.text "x.dev" none]⟩ :=
  ⟨buildContactRows_chunks eng teng cfg content _ content.contactFields st,
   by decide, by decide, by decide⟩

/-- **C2** counterexample: a lone contact field with empty resolved content
still contributes a column — the code emits one row with one empty width-4
column where the claim predicts none — and a lone populated field with an
available icon yields a single column holding icon and text together where
the claim predicts an icon column preceding a separate text column. -/
theorem buildContactSection_claim_cex :
    ResolveTemplate tengNone "" contentEmptyOnly = "" ∧
    (buildContactSection engNone tengNone cfgEx contentEmptyOnly stEx).1 = [⟨6, [⟨4, []⟩]⟩] ∧
    (buildContactSection engNone tengNone cfgEx contentEmailOnly stEx).1
      = [⟨6, [⟨4, [Component.imageFile "icons/envelope_000000_32px.png",
                   Component.text "jane@x.com" none]⟩]⟩] := by
  refine ⟨by decide, by decide, by decide⟩

/-- Collecting the strings of an all-string JSON array returns the strings. -/
lemma filterMap_str_map (xs : List String) :
    (xs.map JValue.str).filterMap
      (fun v => match v with | JValue.str s => some s | _ => none) = xs := by
  induction xs with
  | nil => rfl
  | cons x xs ih => simp [ih]

/-- The composed form of the previous lemma, matching simp's normal form. -/
lemma filterMap_str_comp (xs : List String) :
    List.filterMap
      ((fun v => match v with | JValue.str s => some s | _ => none) ∘ JValue.str) xs = xs := by
  induction xs with
  | nil => rfl
  | cons x xs ih => simp [ih]

/-- **C4** (amended): a skills payload that is a *bare array* of strings,
routed to the simple delimited-list renderer, yields exactly one body row
whose text is the items joined with the `" | "` glyph (so `["Go","Rust"]`
gives `"Go | Rust"`); a payload of shape `\x7bitems: [...]\x7d` reaches the
object branch, which only recognizes a string `content` field, and therefore
yields *no* body row. -/
theorem buildSimpleListSection_spec (eng : SVGEngine) (cfg : Config) (sc : SectionConfig)
    (st : PipelineState) (xs : List String) (hxs : xs ≠ []) :
    ((buildSimpleListSection eng cfg sc (JValue.arr (xs.map JValue.str)) st).1).drop 1
      = [⟨lookupD cfg.spacing
            (lookupD cfg.sectionTemplates sc.template SectionTemplate.zero).spacing 0,
          [⟨12, [Component.text (String.intercalate " | " xs) none]⟩]⟩] ∧
    ((buildSimpleListSection eng cfg sc
        (JValue.obj [("items", JValue.arr (xs.map JValue.str))]) st).1).drop 1 = [] ∧
    (buildSimpleListSection engNone cfgEx scSkills
        (JValue.arr [JValue.str "Go", JValue.str "Rust"]) stEx).1
      = [⟨8, [⟨12, [Component.text "Skills" none]⟩]⟩,
         ⟨6, [⟨12, [Component.text "Go | Rust" none]⟩]⟩] := by
  refine ⟨?_, rfl, by decide⟩
  have hlen : 0 < xs.length := List.length_pos.mpr hxs
  simp [buildSimpleListSection, filterMap_str_map, filterMap_str_comp, hlen]

/-- **C4** witness: `buildSimpleListSection_spec` at `["Go","Rust"]` with the
fixture configuration — the body row text is `"Go | Rust"`. -/
theorem buildSimpleListSection_spec_witness :
    (["Go", "Rust"] : List String) ≠ [] ∧
    ((buildSimpleListSection engNone cfgEx scSkills
        (JValue.arr ((["Go", "Rust"] : List String).map JValue.str)) stEx).1).drop 1
      = [⟨lookupD cfgEx.spacing
            (lookupD cfgEx.sectionTemplates scSkills.template SectionTemplate.zero).spacing 0,
          [⟨12, [Component.text (String.intercalate " | " ["Go", "Rust"]) none]⟩]⟩] :=
  ⟨by decide,
   (buildSimpleListSection_spec engNone cfgEx scSkills stEx ["Go", "Rust"] (by decide)).1⟩

/-- **C4** counterexample: the payload `\x7bitems: ["Go","Rust"]\x7d` routed to the
simple delimited-list renderer produces the title row and *no* body row — no
`"Go | Rust"` text anywhere — while the other program's skills renderer joins
the same items with `" • "`, producing `"Go • Rust"` ≠ `"Go | Rust"`. -/
theorem buildSimpleListSection_claim_cex :
    (buildSimpleListSection engNone cfgEx scSkills
        (JValue.obj [("items", JValue.arr [JValue.str "Go", JValue.str "Rust"])]) stEx).1
      = [⟨8, [⟨12, [Component.text "Skills" none]⟩]⟩] ∧
    SkillsSectionRender skillsSec
      = [⟨12, [⟨12, [Component.text "Skills" none]⟩]⟩,
         ⟨8, [⟨12, [Component.text "Go • Rust" none]⟩]⟩] ∧
    "Go • Rust" ≠ "Go | Rust" := by
  refine ⟨by decide, by decide, by decide⟩

/-- A just-written file is present. -/
lemma hasFile_writeFile (fs : FileSys) (p c : String) : (fs.writeFile p c).hasFile p = true := by
  simp [FileSys.writeFile, FileSys.hasFile, lookupStr]

/-- A successful `convertSVGToPNG` leaves the target PNG on disk. -/
lemma convertSVGToPNG_ok_writes (eng : SVGEngine) (sp pp : String) (ms : ℤ) (ch : String)
    (st st' : PipelineState) (u : Unit)
    (h : convertSVGToPNG eng sp pp ms ch st = (Except.ok u, st')) :
    st'.fs.hasFile pp = true := by
  cases hr : st.fs.readFile sp with
  | none => simp [convertSVGToPNG, hr] at h
  | some svgData =>
    cases hp : eng.parseViewBox (applyIconColor svgData ch) with
    | none => simp [convertSVGToPNG, hr, hp] at h
    | some wh =>
      simp only [convertSVGToPNG, hr, hp, Prod.mk.injEq] at h
      rw [← h.2]
      exact hasFile_writeFile _ _ _

/-- A successful `convertColoredIcon` leaves the PNG at the deterministic
output path on disk. -/
lemma convertColoredIcon_ok_writes (eng : SVGEngine) (iconName : String) :
    ∀ (svgPaths : List String) (outputDir : String) (size : ℤ) (colorHex : String)
      (st st' : PipelineState) (u : Unit),
      convertColoredIcon eng iconName svgPaths outputDir size colorHex st = (Except.ok u, st') →
      st'.fs.hasFile (joinPath outputDir (iconPNGName iconName colorHex size)) = true := by
  intro svgPaths
  induction svgPaths with
  | nil =>
    intro od sz ch st st' u h
    simp [convertColoredIcon] at h
  | cons p rest ih =>
    intro od sz ch st st' u h
    simp only [convertColoredIcon] at h
    by_cases hex : st.fs.hasFile (joinPath p (iconName ++ ".svg")) = true
    · rw [if_pos hex] at h
      exact convertSVGToPNG_ok_writes _ _ _ _ _ _ _ _ h
    · rw [if_neg hex] at h
      exact ih od sz ch st st' u h

/-- **C6**: the cache path is a pure function of (mapped stem, color, size);
when a file already exists at that path the call returns it with the state
completely untouched — the conclusion holds for *every* SVG oracle, so no
parse or rasterize work can be involved — and a second call with identical
arguments (again under an arbitrary oracle) returns the identical result and
changes nothing, whenever the first call produced a path. -/
theorem ensureIcon_idempotent (eng eng' : SVGEngine) (iconName : String)
    (iconConfig : IconConfig) (colorHex : String) (st : PipelineState) :
    (∀ stem, iconName ≠ "" →
      lookupStr iconConfig.mappings iconName = some stem →
      st.fs.hasFile (iconCachePath iconConfig stem colorHex) = true →
      EnsureColoredIconExists eng iconName iconConfig colorHex st
        = (iconCachePath iconConfig stem colorHex, st)) ∧
    ((EnsureColoredIconExists eng iconName iconConfig colorHex st).1 ≠ "" →
      EnsureColoredIconExists eng' iconName iconConfig colorHex
          (EnsureColoredIconExists eng iconName iconConfig colorHex st).2
        = EnsureColoredIconExists eng iconName iconConfig colorHex st) := by
  constructor
  · intro stem hn hm hf
    simp [EnsureColoredIconExists, hn, hm, hf]
  · intro hne
    by_cases hn : iconName = ""
    · exact absurd (by simp [EnsureColoredIconExists, hn]) hne
    · cases hm : lookupStr iconConfig.mappings iconName with
      | none => exact absurd (by simp [EnsureColoredIconExists, hn, hm]) hne
      | some stem =>
        by_cases hf : st.fs.hasFile (iconCachePath iconConfig stem colorHex) = true
        · have h1 : EnsureColoredIconExists eng iconName iconConfig colorHex st
              = (iconCachePath iconConfig stem colorHex, st) := by
            simp [EnsureColoredIconExists, hn, hm, hf]
          rw [h1]
          simp [EnsureColoredIconExists, hn, hm, hf]
        · cases hc : convertColoredIcon eng stem iconConfig.svgPaths iconConfig.outputDir
              iconConfig.defaultSize colorHex st with
          | mk res st' =>
            cases res with
            | ok u =>
              have h1 : EnsureColoredIconExists eng iconName iconConfig colorHex st
                  = (iconCachePath iconConfig stem colorHex, st') := by
                simp [EnsureColoredIconExists, hn, hm, hf, hc]
              have hwrote : st'.fs.hasFile (iconCachePath iconConfig stem colorHex) = true := by
                have := convertColoredIcon_ok_writes eng stem iconConfig.svgPaths
                  iconConfig.outputDir iconConfig.defaultSize colorHex st st' u hc
                simpa [iconCachePath] using this
              rw [h1]
              simp [EnsureColoredIconExists, hn, hm, hwrote]
            | error e =>
              exact absurd (by simp [EnsureColoredIconExists, hn, hm, hf, hc]) hne

/-- **C6** witness: with the warm-cache fixture, the cache hit returns the
deterministic path with untouched state, and the repeated call is the
identity. -/
theorem ensureIcon_idempotent_witness :
    EnsureColoredIconExists engNone "email" iconCfgEx "" stEx
      = (iconCachePath iconCfgEx "envelope" "", stEx) ∧
    EnsureColoredIconExists engNone "email" iconCfgEx ""
        (EnsureColoredIconExists engNone "email" iconCfgEx "" stEx).2
      = EnsureColoredIconExists engNone "email" iconCfgEx "" stEx :=
  ⟨(ensureIcon_idempotent engNone engNone "email" iconCfgEx "" stEx).1 "envelope"
     (by decide) (by decide) (by decide),
   (ensureIcon_idempotent engNone engNone "email" iconCfgEx "" stEx).2 (by decide)⟩

/-- **C7**: the pipeline entry point never propagates an error: its result is
always either the deterministic cache path of the mapped stem or the empty
string ("no icon"); an unmapped icon key yields the empty string with the
state untouched (not an error); a conversion failure — including the
not-found search failure and parse failures — yields the empty string and
appends one log line; and with no icon available the contact-column builder
degrades to a text-only column instead of failing. -/
theorem ensureIcon_no_error (eng : SVGEngine) (iconName : String) (iconConfig : IconConfig)
    (colorHex : String) (st : PipelineState) :
    ((EnsureColoredIconExists eng iconName iconConfig colorHex st).1 = "" ∨
      ∃ stem, lookupStr iconConfig.mappings iconName = some stem ∧
        (EnsureColoredIconExists eng iconName iconConfig colorHex st).1
          = iconCachePath iconConfig stem colorHex) ∧
    (lookupStr iconConfig.mappings iconName = none →
      EnsureColoredIconExists eng iconName iconConfig colorHex st = ("", st)) ∧
    (∀ stem e st', iconName ≠ "" →
      lookupStr iconConfig.mappings iconName = some stem →
      st.fs.hasFile (iconCachePath iconConfig stem colorHex) = false →
      convertColoredIcon eng stem iconConfig.svgPaths iconConfig.outputDir
          iconConfig.defaultSize colorHex st = (Except.error e, st') →
      (EnsureColoredIconExists eng iconName iconConfig colorHex st).1 = "" ∧
      (EnsureColoredIconExists eng iconName iconConfig colorHex st).2.logs
        = ("Could not convert icon " ++ iconName ++ ": " ++ e) :: st'.logs) ∧
    (∀ (teng : TemplateEngine) (field : ContactField) (cfg : Config) (content : Content)
        (stc : PipelineState),
      field.type = none →
      ResolveTemplate teng field.content content ≠ "" →
      (EnsureIconExists eng field.icon cfg.icons cfg.colors stc).1 = "" →
      (CreateContactFieldCol eng teng field cfg content stc).1
        = ⟨4, [Component.text (ResolveTemplate teng field.content content) none]⟩) := by
  refine ⟨?_, ?_, ?_, ?_⟩
  · by_cases hn : iconName = ""
    · exact Or.inl (by simp [EnsureColoredIconExists, hn])
    · cases hm : lookupStr iconConfig.mappings iconName with
      | none => exact Or.inl (by simp [EnsureColoredIconExists, hn, hm])
      | some stem =>
        by_cases hf : st.fs.hasFile (iconCachePath iconConfig stem colorHex) = true
        · exact Or.inr ⟨stem, rfl, by simp [EnsureColoredIconExists, hn, hm, hf]⟩
        · cases hc : convertColoredIcon eng stem iconConfig.svgPaths iconConfig.outputDir
              iconConfig.defaultSize colorHex st with
          | mk res st' =>
            cases res with
            | ok u => exact Or.inr ⟨stem, rfl, by simp [EnsureColoredIconExists, hn, hm, hf, hc]⟩
            | error e => exact Or.inl (by simp [EnsureColoredIconExists, hn, hm, hf, hc])
  · intro hm
    by_cases hn : iconName = "" <;> simp [EnsureColoredIconExists, hn, hm]
  · intro stem e st' hn hm hf hc
    constructor <;> simp [EnsureColoredIconExists, hn, hm, hf, hc]
  · intro teng field cfg content stc htype hc hi
    simp [CreateContactFieldCol, hc, hi, htype]

/-- **C7** witness: the unmapped key `globe` yields "no icon" untouched; with
no search directories the conversion fails, is logged, and still yields "no
icon"; and the populated `x.dev` field with an unavailable icon renders
text-only. -/
theorem ensureIcon_no_error_witness :
    EnsureColoredIconExists engNone "globe" iconCfgEx "" stEx = ("", stEx) ∧
    (EnsureColoredIconExists engNone "email" iconCfgNoSrc "" stEmpty).1 = "" ∧
    (EnsureColoredIconExists engNone "email" iconCfgNoSrc "" stEmpty).2.logs
      = ["Could not convert icon email: icon envelope not found in any configured SVG paths"] ∧
    (CreateContactFieldCol engNone tengNone fieldNoIcon cfgEx contentEx stEx).1
      = ⟨4, [Component.text (ResolveTemplate tengNone fieldNoIcon.content contentEx) none]⟩ :=
  ⟨(ensureIcon_no_error engNone "globe" iconCfgEx "" stEx).2.1 (by decide),
   ((ensureIcon_no_error engNone "email" iconCfgNoSrc "" stEmpty).2.2.1 "envelope"
     "icon envelope not found in any configured SVG paths" stEmpty
     (by decide) (by decide) (by decide) rfl).1,
   ((ensureIcon_no_error engNone "email" iconCfgNoSrc "" stEmpty).2.2.1 "envelope"
     "icon envelope not found in any configured SVG paths" stEmpty
     (by decide) (by decide) (by decide) rfl).2,
   (ensureIcon_no_error engNone "email" iconCfgEx "" stEx).2.2.2 tengNone fieldNoIcon
     cfgEx contentEx stEx rfl (by decide) (by decide)⟩

/-- `selectMin` preserves the length of the remainder. -/
lemma selectMin_length : ∀ (xs : List MSection) (x : MSection),
    (selectMin x xs).2.length = xs.length := by
  intro xs
  induction xs with
  | nil => intro x; rfl
  | cons y ys ih =>
    intro x
    by_cases h : x.order > y.order
    · simp [selectMin, h, ih]
    · simp [selectMin, h, ih]

/-- The candidate `selectMin` returns is no larger than the one it started
from. -/
lemma selectMin_fst_le : ∀ (xs : List MSection) (x : MSection),
    (selectMin x xs).1.order ≤ x.order := by
  intro xs
  induction xs with
  | nil => intro x; simp [selectMin]
  | cons y ys ih =>
    intro x
    by_cases h : x.order > y.order
    · have h1 : (selectMin x (y :: ys)).1 = (selectMin y ys).1 := by simp [selectMin, h]
      rw [h1]
      exact le_trans (ih y) (le_of_lt h)
    · have h1 : (selectMin x (y :: ys)).1 = (selectMin x ys).1 := by simp [selectMin, h]
      rw [h1]
      exact ih x

/-- The candidate `selectMin` returns is no larger than anything left in the
remainder. -/
lemma selectMin_le_mem : ∀ (xs : List MSection) (x z : MSection),
    z ∈ (selectMin x xs).2 → (selectMin x xs).1.order ≤ z.order := by
  intro xs
  induction xs with
  | nil => intro x z hz; simp [selectMin] at hz
  | cons y ys ih =>
    intro x z hz
    by_cases h : x.order > y.order
    · have h1 : (selectMin x (y :: ys)).1 = (selectMin y ys).1 := by simp [selectMin, h]
      have h2 : (selectMin x (y :: ys)).2 = x :: (selectMin y ys).2 := by simp [selectMin, h]
      rw [h2] at hz
      rw [h1]
      rcases List.mem_cons.mp hz with hz | hz
      · rw [hz]
        exact le_trans (selectMin_fst_le ys y) (le_of_lt h)
      · exact ih y z hz
    · have h1 : (selectMin x (y :: ys)).1 = (selectMin x ys).1 := by simp [selectMin, h]
      have h2 : (selectMin x (y :: ys)).2 = y :: (selectMin x ys).2 := by simp [selectMin, h]
      rw [h2] at hz
      rw [h1]
      rcases List.mem_cons.mp hz with hz | hz
      · rw [hz]
        exact le_trans (selectMin_fst_le ys x) (not_lt.mp h)
      · exact ih x z hz

/-- One inner pass is a permutation: candidate plus remainder is the original
candidate plus list. -/
lemma selectMin_perm : ∀ (xs : List MSection) (x : MSection),
    List.Perm ((selectMin x xs).1 :: (selectMin x xs).2) (x :: xs) := by
  intro xs
  induction xs with
  | nil => intro x; simp [selectMin]
  | cons y ys ih =>
    intro x
    by_cases h : x.order > y.order
    · have h1 : (selectMin x (y :: ys)).1 = (selectMin y ys).1 := by simp [selectMin, h]
      have h2 : (selectMin x (y :: ys)).2 = x :: (selectMin y ys).2 := by simp [selectMin, h]
      rw [h1, h2]
      exact List.Perm.trans (List.Perm.swap x (selectMin y ys).1 (selectMin y ys).2)
        ((ih y).cons x)
    · have h1 : (selectMin x (y :: ys)).1 = (selectMin x ys).1 := by simp [selectMin, h]
      have h2 : (selectMin x (y :: ys)).2 = y :: (selectMin x ys).2 := by simp [selectMin, h]
      rw [h1, h2]
      exact List.Perm.trans (List.Perm.swap y (selectMin x ys).1 (selectMin x ys).2)
        (List.Perm.trans ((ih x).cons y) (List.Perm.swap x y ys))

/-- The fueled outer loop permutes its input when given enough fuel. -/
lemma swapSortFuel_perm : ∀ (n : Nat) (xs : List MSection), xs.length ≤ n →
    List.Perm (swapSortFuel n xs) xs := by
  intro n
  induction n with
  | zero => intro xs h; exact List.Perm.refl _
  | succ n ih =>
    intro xs h
    cases xs with
    | nil => simp [swapSortFuel]
    | cons x xs =>
      simp only [swapSortFuel]
      have hlen : (selectMin x xs).2.length ≤ n := by
        rw [selectMin_length]
        simpa using h
      exact List.Perm.trans ((ih _ hlen).cons _) (selectMin_perm xs x)

/-- The fueled outer loop sorts ascending by `order` when given enough fuel. -/
lemma swapSortFuel_sorted : ∀ (n : Nat) (xs : List MSection), xs.length ≤ n →
    List.Sorted (fun a b : MSection => a.order ≤ b.order) (swapSortFuel n xs) := by
  intro n
  induction n with
  | zero =>
    intro xs h
    have : xs = [] := List.eq_nil_of_length_eq_zero (Nat.le_zero.mp h)
    simp [this, swapSortFuel]
  | succ n ih =>
    intro xs h
    cases xs with
    | nil => simp [swapSortFuel]
    | cons x xs =>
      simp only [swapSortFuel]
      have hlen : (selectMin x xs).2.length ≤ n := by
        rw [selectMin_length]
        simpa using h
      rw [List.sorted_cons]
      refine ⟨?_, ih _ hlen⟩
      intro b hb
      exact selectMin_le_mem xs x b ((swapSortFuel_perm n _ hlen).subset hb)

/-- The section sort permutes its input. -/
lemma swapSort_perm (ss : List MSection) : List.Perm (swapSort ss) ss :=
  swapSortFuel_perm _ _ le_rfl

/-- The section sort sorts ascending by `order`. -/
lemma swapSort_sorted (ss : List MSection) :
    List.Sorted (fun a b : MSection => a.order ≤ b.order) (swapSort ss) :=
  swapSortFuel_sorted _ _ le_rfl

/-- The render loop's output is the concatenation of the rendered sections'
command blocks, in rendered order. -/
lemma buildResumeSections_eq (ss : List MSection) :
    buildResumeSections ss = (renderedSections ss).flatMap renderSectionCmds := by
  have key : ∀ (l : List MSection) (acc : List Row),
      l.foldl (fun acc s =>
        if s.enabled then
          match lookupStr createSectionRegistry s.type with
          | some r => acc ++ r s
          | none => acc
        else acc) acc
        = acc ++ (l.filter (fun s => s.enabled && sectionRegistered s)).flatMap
            renderSectionCmds := by
    intro l
    induction l with
    | nil => intro acc; simp
    | cons s l ih =>
      intro acc
      simp only [List.foldl_cons]
      by_cases he : s.enabled = true
      · cases hr : lookupStr createSectionRegistry s.type with
        | none =>
          rw [ih]
          simp [List.filter_cons, he, sectionRegistered, hr]
        | some r =>
          rw [ih]
          simp [List.filter_cons, he, sectionRegistered, hr, renderSectionCmds]
      · rw [ih]
        simp [List.filter_cons, he]
  have h := key (swapSort ss) []
  simpa [buildResumeSections, renderedSections] using h

/-- **C8**: the composer renders the enabled (registered) sections in weakly
ascending `order`: the all-pairs swap loop sorts ascending, the render loop
walks that sorted list emitting each rendered section's commands in place,
and on the spec's concrete triple — orders [3,1,2] under tags
[skills, experience, education] — the rendered sequence is
[experience, education, skills]. -/
theorem sections_render_ordered (ss : List MSection) :
    List.Sorted (fun a b : MSection => a.order ≤ b.order) (renderedSections ss) ∧
    buildResumeSections ss = (renderedSections ss).flatMap renderSectionCmds ∧
    (renderedSections ssOrderEx).map (fun s => s.type)
      = ["experience", "education", "skills"] :=
  ⟨(swapSort_sorted ss).filter _, buildResumeSections_eq ss, by decide⟩

/-- **C9**: a section with an unregistered type tag is skipped silently —
every rendered section is enabled and registered, every enabled registered
input section is rendered (so siblings render in full, their command blocks
appearing unchanged in the concatenated output), and concretely an enabled
`hobbies` section is dropped while its `skills` sibling's full rows are the
entire output. -/
theorem unknown_tag_skipped (ss : List MSection) :
    (∀ s, s ∈ renderedSections ss → s.enabled = true ∧ sectionRegistered s = true) ∧
    (∀ s, s ∈ ss → s.enabled = true → sectionRegistered s = true →
      s ∈ renderedSections ss) ∧
    sectionRegistered hobbiesSec = false ∧
    (renderedSections [hobbiesSec, skillsSec]).map (fun s => s.type) = ["skills"] ∧
    buildResumeSections [hobbiesSec, skillsSec] = SkillsSectionRender skillsSec := by
  refine ⟨?_, ?_, by decide, by decide, by decide⟩
  · intro s hs
    have hs' := List.mem_filter.mp hs
    have hb := hs'.2
    rw [Bool.and_eq_true] at hb
    exact ⟨hb.1, hb.2⟩
  · intro s hs he hr
    apply List.mem_filter.mpr
    exact ⟨((swapSort_perm ss).mem_iff).mpr hs, by simp [he, hr]⟩

/-- **C9** witness: the rendered-section membership clauses instantiated at
the hobbies/skills pair — `skills` is rendered, and its membership certifies
the enabled/registered conditions. -/
theorem unknown_tag_skipped_witness :
    skillsSec ∈ renderedSections [hobbiesSec, skillsSec] ∧
    (skillsSec.enabled = true ∧ sectionRegistered skillsSec = true) := by
  have hmem : skillsSec ∈ renderedSections [hobbiesSec, skillsSec] :=
    (unknown_tag_skipped [hobbiesSec, skillsSec]).2.1 skillsSec
      (List.mem_cons_of_mem _ (List.mem_cons_self _ _)) rfl rfl
  exact ⟨hmem, (unknown_tag_skipped [hobbiesSec, skillsSec]).1 skillsSec hmem⟩
